import Mathlib

/-!
Shallow embedding of the risk-scoring core of the
`websparks-ai/websparks-remix-ts-template` repository.

The repository contains two risk calculators over the same session type
(`FingerprintSession` in the shared type module):

* the detailed Aggregator, `calculateRiskScore` in `src/unnamed/part_002`
  (embedded below in namespace `Part002`), and
* the simpler `calculateRiskScore` in `src/app/utils/risk-calculator.ts`
  (embedded in namespace `RiskCalculatorTs`).

JavaScript `number` is modelled by `ℚ` (every literal appearing in the
source is an exact decimal, so all branch comparisons are faithful),
`Math.round` by `jsRound` (round half towards +∞), string `includes` by
`jsIncludes` (substring test on the character list), and the
localStorage-backed history store (`getStoredFingerprints` /
`getDeviceCount` / `getIPCount` in the storage module) by an explicit
`StoredFingerprints` value passed to the scoring functions, with absent
keys reading as 0 (the `|| 0` in the source).  The `try { ... } catch`
around the history lookups in both calculators never fires in the model
because `getStoredFingerprints` itself already swallows storage errors
and returns a default record.
-/

/-- `Math.round`: round half away from zero towards +∞, i.e. `⌊q + 1/2⌋`. -/
def jsRound (q : ℚ) : ℤ := ⌊q + (1 : ℚ)/2⌋

/-- ASCII case lowering of one character (`A`-`Z` map to `a`-`z`); the user
agents and marker substrings the calculators compare are all ASCII, so this
matches JavaScript `toLowerCase` on every relevant input. -/
def charToLower (c : Char) : Char :=
  if 65 ≤ c.toNat ∧ c.toNat ≤ 90 then Char.ofNat (c.toNat + 32) else c

/-- JavaScript `s.toLowerCase()`, as the lowered character list. -/
def jsToLower (s : String) : List Char := s.toList.map charToLower

/-- JavaScript `s.includes(pat)`: `pat` occurs as a contiguous substring of `s`. -/
def jsIncludes (s : List Char) (pat : String) : Bool := decide (pat.toList <:+: s)

/-- `DeviceFingerprint` of the shared type module (the `components` record is
`Record<string, any>` and is never read by either risk calculator; it is
omitted). -/
structure DeviceFingerprint where
  visitorId : String
  confidence : ℚ
  timestamp : ℚ
deriving DecidableEq

/-- `IncognitoDetection` of the shared type module (the `details` record is
`Record<string, any>` and is never read by the risk calculators; omitted). -/
structure IncognitoDetection where
  isIncognito : Bool
  confidence : ℚ
  method : String
deriving DecidableEq

/-- `IPAnalysis` of the shared type module. -/
structure IPAnalysis where
  ip : String
  country : String
  region : String
  city : String
  isp : String
  isVPN : Bool
  isTor : Bool
  isProxy : Bool
  riskScore : ℚ
  threatTypes : List String
deriving DecidableEq

/-- `BehaviorAnalysis` of the shared type module. -/
structure BehaviorAnalysis where
  mouseMovements : ℚ
  keystrokes : ℚ
  scrollEvents : ℚ
  timeOnPage : ℚ
  interactionSpeed : ℚ
  suspiciousPatterns : List String
deriving DecidableEq

/-- The `Omit<FingerprintSession, 'riskScore' | 'riskLevel'>` argument both
calculators receive: a `FingerprintSession` without the two output fields.
`ipAnalysis` is `IPAnalysis | null` in the source, hence an `Option`. -/
structure FingerprintSession where
  id : String
  deviceFingerprint : DeviceFingerprint
  incognitoDetection : IncognitoDetection
  ipAnalysis : Option IPAnalysis
  behaviorAnalysis : BehaviorAnalysis
  timestamp : ℚ
  userAgent : String
  screenResolution : String
  timezone : String
  language : String
deriving DecidableEq

/-- The risk tier enum `'LOW' | 'MEDIUM' | 'HIGH' | 'CRITICAL'`. -/
inductive RiskLevel where
  | LOW | MEDIUM | HIGH | CRITICAL
deriving DecidableEq, Repr

/-- Rank of a tier, for stating monotonicity of the score→tier mapping. -/
def RiskLevel.rank : RiskLevel → ℕ
  | .LOW => 0
  | .MEDIUM => 1
  | .HIGH => 2
  | .CRITICAL => 3

/-- The history store that backs `getDeviceCount` / `getIPCount`
(`deviceHistory` / `ipHistory` of `StoredFingerprints` in the storage
module): key→count maps with absent keys reading as 0. -/
structure StoredFingerprints where
  deviceHistory : String → ℚ
  ipHistory : String → ℚ

/-- `getDeviceCount(deviceId)`: `stored.deviceHistory[deviceId] || 0`. -/
def getDeviceCount (store : StoredFingerprints) (deviceId : String) : ℚ :=
  store.deviceHistory deviceId

/-- `getIPCount(ip)`: `stored.ipHistory[ip] || 0`. -/
def getIPCount (store : StoredFingerprints) (ip : String) : ℚ :=
  store.ipHistory ip

namespace Part002

/-- The return value of `calculateRiskScore` in `src/unnamed/part_002`:
`{ riskScore: number; riskLevel: ... }`.  The score is an integer after
`Math.round` and clamping. -/
structure RiskResult where
  riskScore : ℤ
  riskLevel : RiskLevel
deriving DecidableEq, Repr

/-! Each conditional addition of `calculateRiskScore` (part_002) is
transcribed as one step returning the points it adds and the factor
labels it pushes, in source order.  `scoreRaw` is the value of the
mutable `score` variable just before the final clamp, and `riskFactors`
the final value of the `riskFactors` array. -/

/-- Lines 9-19: device fingerprint confidence ladder. -/
def fingerprintStep (s : FingerprintSession) : ℚ × List String :=
  let fpConfidence := s.deviceFingerprint.confidence
  if fpConfidence < 0.3 then (40, ["very-low-fingerprint-confidence"])
  else if fpConfidence < 0.5 then (25, ["low-fingerprint-confidence"])
  else if fpConfidence < 0.7 then (10, ["medium-fingerprint-confidence"])
  else (0, [])

/-- Lines 22-34: incognito detection ladder (only if `isIncognito`). -/
def incognitoStep (s : FingerprintSession) : ℚ × List String :=
  if s.incognitoDetection.isIncognito then
    let confidence := s.incognitoDetection.confidence
    if confidence > 0.8 then (35, ["confirmed-incognito"])
    else if confidence > 0.5 then (25, ["likely-incognito"])
    else (15, ["possible-incognito"])
  else (0, [])

/-- Line 39: `score += ipRisk * 0.4` (no factor label is pushed). -/
def ipBaseStep (s : FingerprintSession) : ℚ × List String :=
  match s.ipAnalysis with
  | none => (0, [])
  | some ipa => (ipa.riskScore * 0.4, [])

/-- Lines 42-45: VPN detection. -/
def ipVPNStep (s : FingerprintSession) : ℚ × List String :=
  match s.ipAnalysis with
  | none => (0, [])
  | some ipa => if ipa.isVPN then (30, ["vpn-detected"]) else (0, [])

/-- Lines 48-51: Tor detection. -/
def ipTorStep (s : FingerprintSession) : ℚ × List String :=
  match s.ipAnalysis with
  | none => (0, [])
  | some ipa => if ipa.isTor then (50, ["tor-detected"]) else (0, [])

/-- Lines 54-57: proxy detection. -/
def ipProxyStep (s : FingerprintSession) : ℚ × List String :=
  match s.ipAnalysis with
  | none => (0, [])
  | some ipa => if ipa.isProxy then (20, ["proxy-detected"]) else (0, [])

/-- Lines 60-64: threat tag `hosting-provider`. -/
def ipHostingStep (s : FingerprintSession) : ℚ × List String :=
  match s.ipAnalysis with
  | none => (0, [])
  | some ipa =>
    if ipa.threatTypes.contains "hosting-provider" then (15, ["hosting-provider"]) else (0, [])

/-- Lines 65-68: threat tag `known-vpn`. -/
def ipKnownVPNStep (s : FingerprintSession) : ℚ × List String :=
  match s.ipAnalysis with
  | none => (0, [])
  | some ipa =>
    if ipa.threatTypes.contains "known-vpn" then (25, ["known-vpn-service"]) else (0, [])

/-- Lines 69-72: threat tag `blacklisted`. -/
def ipBlacklistStep (s : FingerprintSession) : ℚ × List String :=
  match s.ipAnalysis with
  | none => (0, [])
  | some ipa =>
    if ipa.threatTypes.contains "blacklisted" then (40, ["blacklisted-ip"]) else (0, [])

/-- Lines 73-76: threat tag `high-risk`. -/
def ipHighRiskStep (s : FingerprintSession) : ℚ × List String :=
  match s.ipAnalysis with
  | none => (0, [])
  | some ipa =>
    if ipa.threatTypes.contains "high-risk" then (30, ["high-risk-ip"]) else (0, [])

/-- Line 84: `score += suspiciousPatterns.length * 12` (no factor label). -/
def patternBaseStep (s : FingerprintSession) : ℚ × List String :=
  ((s.behaviorAnalysis.suspiciousPatterns.length : ℚ) * 12, [])

/-- Lines 86-89: pattern `inhuman-mouse-speed`. -/
def mouseSpeedStep (s : FingerprintSession) : ℚ × List String :=
  if s.behaviorAnalysis.suspiciousPatterns.contains "inhuman-mouse-speed" then
    (20, ["bot-like-mouse-movement"]) else (0, [])

/-- Lines 90-93: pattern `inhuman-typing-speed`. -/
def typingSpeedStep (s : FingerprintSession) : ℚ × List String :=
  if s.behaviorAnalysis.suspiciousPatterns.contains "inhuman-typing-speed" then
    (25, ["bot-like-typing"]) else (0, [])

/-- Lines 94-97: pattern `consistent-keystroke-timing`. -/
def keystrokeStep (s : FingerprintSession) : ℚ × List String :=
  if s.behaviorAnalysis.suspiciousPatterns.contains "consistent-keystroke-timing" then
    (30, ["automated-input"]) else (0, [])

/-- Lines 98-101: pattern `straight-mouse-lines`. -/
def straightMouseStep (s : FingerprintSession) : ℚ × List String :=
  if s.behaviorAnalysis.suspiciousPatterns.contains "straight-mouse-lines" then
    (15, ["scripted-mouse-movement"]) else (0, [])

/-- Lines 104-111: interaction speed ladder. -/
def interactionSpeedStep (s : FingerprintSession) : ℚ × List String :=
  let interactionSpeed := s.behaviorAnalysis.interactionSpeed
  if interactionSpeed > 2000 then (25, ["superhuman-interaction-speed"])
  else if interactionSpeed > 1000 then (15, ["very-fast-interactions"])
  else (0, [])

/-- `mouseMovements + keystrokes + scrollEvents` (line 115). -/
def totalInteractions (s : FingerprintSession) : ℚ :=
  s.behaviorAnalysis.mouseMovements + s.behaviorAnalysis.keystrokes +
    s.behaviorAnalysis.scrollEvents

/-- Lines 117-123: rapid-fire / burst ladder. -/
def burstStep (s : FingerprintSession) : ℚ × List String :=
  let timeOnPage := s.behaviorAnalysis.timeOnPage
  if timeOnPage < 3000 ∧ totalInteractions s > 100 then (35, ["rapid-fire-interactions"])
  else if timeOnPage < 5000 ∧ totalInteractions s > 50 then (20, ["fast-interaction-burst"])
  else (0, [])

/-- Lines 126-129: minimal interaction check. -/
def idleStep (s : FingerprintSession) : ℚ × List String :=
  if s.behaviorAnalysis.timeOnPage > 30000 ∧ totalInteractions s < 5 then
    (20, ["minimal-interaction"]) else (0, [])

/-- Lines 133-142: device-reuse history ladder (reads the store). -/
def historyDeviceStep (store : StoredFingerprints) (s : FingerprintSession) :
    ℚ × List String :=
  let deviceCount := getDeviceCount store s.deviceFingerprint.visitorId
  if deviceCount > 20 then (25, ["frequent-device-reuse"])
  else if deviceCount > 10 then (15, ["repeated-device-usage"])
  else (0, [])

/-- Lines 144-153: IP-usage history ladder, only when `ipAnalysis` is present
(reads the store). -/
def historyIPStep (store : StoredFingerprints) (s : FingerprintSession) :
    ℚ × List String :=
  match s.ipAnalysis with
  | none => (0, [])
  | some ipa =>
    let ipCount := getIPCount store ipa.ip
    if ipCount > 50 then (30, ["ip-abuse-pattern"])
    else if ipCount > 20 then (20, ["frequent-ip-usage"])
    else (0, [])

/-- Lines 162-165: headless-browser markers in the lowercased user agent. -/
def headlessStep (s : FingerprintSession) : ℚ × List String :=
  let ua := jsToLower s.userAgent
  if jsIncludes ua "headless" ∨ jsIncludes ua "phantom" ∨ jsIncludes ua "selenium" ∨
      jsIncludes ua "chromedriver" then
    (60, ["headless-browser"]) else (0, [])

/-- Lines 168-171: automation-tool markers. -/
def automationStep (s : FingerprintSession) : ℚ × List String :=
  let ua := jsToLower s.userAgent
  if jsIncludes ua "puppeteer" ∨ jsIncludes ua "playwright" ∨ jsIncludes ua "webdriver" then
    (55, ["automation-tool"]) else (0, [])

/-- Lines 174-177: bot markers. -/
def botUAStep (s : FingerprintSession) : ℚ × List String :=
  let ua := jsToLower s.userAgent
  if jsIncludes ua "bot" ∨ jsIncludes ua "crawler" ∨ jsIncludes ua "spider" then
    (40, ["bot-user-agent"]) else (0, [])

/-- Lines 180-183: outdated-browser markers. -/
def outdatedStep (s : FingerprintSession) : ℚ × List String :=
  let ua := jsToLower s.userAgent
  if jsIncludes ua "msie" ∨ jsIncludes ua "internet explorer" then
    (10, ["outdated-browser"]) else (0, [])

/-- Lines 186-190: invalid screen resolution. -/
def screenStep (s : FingerprintSession) : ℚ × List String :=
  if s.screenResolution = "0x0" ∨ s.screenResolution = "1x1" then
    (45, ["invalid-screen-resolution"]) else (0, [])

/-- Lines 193-197: suspicious timezone (`!timezone || timezone === 'UTC'`). -/
def timezoneStep (s : FingerprintSession) : ℚ × List String :=
  if s.timezone = "" ∨ s.timezone = "UTC" then
    (10, ["suspicious-timezone"]) else (0, [])

/-- Lines 200-204: default language adds 2 points and pushes no factor. -/
def languageStep (s : FingerprintSession) : ℚ × List String :=
  if s.language = "" ∨ s.language = "en" ∨ s.language = "en-US" then
    (2, []) else (0, [])

/-- Value of the `score` variable just before the final clamp (line 207). -/
def scoreRaw (store : StoredFingerprints) (s : FingerprintSession) : ℚ :=
  (fingerprintStep s).1 + (incognitoStep s).1 + (ipBaseStep s).1 + (ipVPNStep s).1 +
    (ipTorStep s).1 + (ipProxyStep s).1 + (ipHostingStep s).1 + (ipKnownVPNStep s).1 +
    (ipBlacklistStep s).1 + (ipHighRiskStep s).1 + (patternBaseStep s).1 +
    (mouseSpeedStep s).1 + (typingSpeedStep s).1 + (keystrokeStep s).1 +
    (straightMouseStep s).1 + (interactionSpeedStep s).1 + (burstStep s).1 +
    (idleStep s).1 + (historyDeviceStep store s).1 + (historyIPStep store s).1 +
    (headlessStep s).1 + (automationStep s).1 + (botUAStep s).1 + (outdatedStep s).1 +
    (screenStep s).1 + (timezoneStep s).1 + (languageStep s).1

/-- Final value of the `riskFactors` array: labels in the order pushed. -/
def riskFactors (store : StoredFingerprints) (s : FingerprintSession) : List String :=
  (fingerprintStep s).2 ++ (incognitoStep s).2 ++ (ipBaseStep s).2 ++ (ipVPNStep s).2 ++
    (ipTorStep s).2 ++ (ipProxyStep s).2 ++ (ipHostingStep s).2 ++ (ipKnownVPNStep s).2 ++
    (ipBlacklistStep s).2 ++ (ipHighRiskStep s).2 ++ (patternBaseStep s).2 ++
    (mouseSpeedStep s).2 ++ (typingSpeedStep s).2 ++ (keystrokeStep s).2 ++
    (straightMouseStep s).2 ++ (interactionSpeedStep s).2 ++ (burstStep s).2 ++
    (idleStep s).2 ++ (historyDeviceStep store s).2 ++ (historyIPStep store s).2 ++
    (headlessStep s).2 ++ (automationStep s).2 ++ (botUAStep s).2 ++ (outdatedStep s).2 ++
    (screenStep s).2 ++ (timezoneStep s).2 ++ (languageStep s).2

/-- Line 207: `score = Math.max(0, Math.min(100, Math.round(score)))`. -/
def clampedScore (store : StoredFingerprints) (s : FingerprintSession) : ℤ :=
  max 0 (min 100 (jsRound (scoreRaw store s)))

/-- Lines 210-219: tier thresholds applied to the clamped score. -/
def riskLevelOfScore (score : ℤ) : RiskLevel :=
  if score ≥ 85 then .CRITICAL
  else if score ≥ 65 then .HIGH
  else if score ≥ 35 then .MEDIUM
  else .LOW

/-- `calculateRiskScore` of `src/unnamed/part_002` (the Aggregator), with the
localStorage history store passed explicitly.  Returns
`{ riskScore: score, riskLevel }` — the `riskFactors` array is computed
during scoring (see `riskFactors`) but does not appear in the return value,
exactly as in the source (line 221). -/
def calculateRiskScore (store : StoredFingerprints) (s : FingerprintSession) :
    RiskResult :=
  let score := clampedScore store s
  { riskScore := score, riskLevel := riskLevelOfScore score }

end Part002

namespace RiskCalculatorTs

/-- The return value of `calculateRiskScore` in
`src/app/utils/risk-calculator.ts`; this variant never rounds, so the score
stays a `number` (here `ℚ`). -/
structure RiskResult where
  riskScore : ℚ
  riskLevel : RiskLevel
deriving DecidableEq, Repr

/-- Value of `score` before the final clamp in
`src/app/utils/risk-calculator.ts` (lines 5-57). -/
def scoreRaw (store : StoredFingerprints) (s : FingerprintSession) : ℚ :=
  (if s.deviceFingerprint.confidence < 0.5 then (30 : ℚ)
   else if s.deviceFingerprint.confidence < 0.7 then 15 else 0) +
  (if s.incognitoDetection.isIncognito then 25 else 0) +
  (match s.ipAnalysis with
   | none => 0
   | some ipa =>
     ipa.riskScore * 0.3 + (if ipa.isVPN then 20 else 0) +
       (if ipa.isTor then 40 else 0) + (if ipa.isProxy then 15 else 0)) +
  (s.behaviorAnalysis.suspiciousPatterns.length : ℚ) * 10 +
  (if s.behaviorAnalysis.interactionSpeed > 1000 then 20 else 0) +
  (if s.behaviorAnalysis.interactionSpeed < 10 ∧ s.behaviorAnalysis.timeOnPage > 30000
   then 15 else 0) +
  (if s.behaviorAnalysis.timeOnPage < 5000 ∧
      s.behaviorAnalysis.mouseMovements + s.behaviorAnalysis.keystrokes > 50
   then 25 else 0) +
  (if getDeviceCount store s.deviceFingerprint.visitorId > 5 then 10 else 0) +
  (match s.ipAnalysis with
   | none => 0
   | some ipa => if getIPCount store ipa.ip > 10 then 15 else 0) +
  (if jsIncludes (jsToLower s.userAgent) "headless" ∨
      jsIncludes (jsToLower s.userAgent) "phantom" ∨
      jsIncludes (jsToLower s.userAgent) "selenium"
   then 50 else 0)

/-- `calculateRiskScore` of `src/app/utils/risk-calculator.ts`:
`score = Math.max(0, Math.min(100, score))` (no rounding), tier thresholds
80 / 60 / 30. -/
def calculateRiskScore (store : StoredFingerprints) (s : FingerprintSession) :
    RiskResult :=
  let score : ℚ := max 0 (min 100 (scoreRaw store s))
  { riskScore := score,
    riskLevel :=
      if score ≥ 80 then .CRITICAL
      else if score ≥ 60 then .HIGH
      else if score ≥ 30 then .MEDIUM
      else .LOW }

end RiskCalculatorTs

attribute [simp] jsRound charToLower jsToLower jsIncludes getDeviceCount getIPCount
  RiskLevel.rank Part002.fingerprintStep Part002.incognitoStep Part002.ipBaseStep
  Part002.ipVPNStep Part002.ipTorStep Part002.ipProxyStep Part002.ipHostingStep
  Part002.ipKnownVPNStep Part002.ipBlacklistStep Part002.ipHighRiskStep
  Part002.patternBaseStep Part002.mouseSpeedStep Part002.typingSpeedStep
  Part002.keystrokeStep Part002.straightMouseStep Part002.interactionSpeedStep
  Part002.totalInteractions Part002.burstStep Part002.idleStep Part002.historyDeviceStep
  Part002.historyIPStep Part002.headlessStep Part002.automationStep Part002.botUAStep
  Part002.outdatedStep Part002.screenStep Part002.timezoneStep Part002.languageStep
  Part002.scoreRaw Part002.riskFactors Part002.clampedScore Part002.riskLevelOfScore
  Part002.calculateRiskScore RiskCalculatorTs.scoreRaw RiskCalculatorTs.calculateRiskScore

/-- The empty history store: no device or IP has been seen before. -/
def store0 : StoredFingerprints := ⟨fun _ => 0, fun _ => 0⟩

/-- A history store in which every device has been seen 25 times. -/
def store25 : StoredFingerprints := ⟨fun _ => 25, fun _ => 0⟩

/-- A benign behavior report: 10 interactions (5 + 3 + 2) over a 60000 ms
session, 10 interactions per minute, no suspicious patterns. -/
def behaviorNeutral : BehaviorAnalysis :=
  { mouseMovements := 5, keystrokes := 3, scrollEvents := 2, timeOnPage := 60000,
    interactionSpeed := 10, suspiciousPatterns := [] }

/-- A benign session that fires no scoring rule of either calculator. -/
def sessionNeutral : FingerprintSession :=
  { id := "s1"
    deviceFingerprint := { visitorId := "v1", confidence := 0.75, timestamp := 0 }
    incognitoDetection := { isIncognito := false, confidence := 0, method := "none" }
    ipAnalysis := none
    behaviorAnalysis := behaviorNeutral
    timestamp := 0
    userAgent := "Mozilla/5.0 Chrome"
    screenResolution := "1920x1080"
    timezone := "Europe/Berlin"
    language := "de" }

attribute [simp] store0 store25 behaviorNeutral sessionNeutral

example : Part002.calculateRiskScore store0 sessionNeutral = ⟨0, .LOW⟩ := by
  norm_num; simp +decide; norm_num

/-- C1: the Aggregator's score is clamped into `[0, 100]`, its tier is the
deterministic threshold function of the score (`≥ 85` CRITICAL, `≥ 65` HIGH,
`≥ 35` MEDIUM, else LOW), and that threshold function is non-decreasing in
the score. -/
theorem claim_C1 (store : StoredFingerprints) (s : FingerprintSession) :
    0 ≤ (Part002.calculateRiskScore store s).riskScore ∧
    (Part002.calculateRiskScore store s).riskScore ≤ 100 ∧
    (Part002.calculateRiskScore store s).riskLevel =
      Part002.riskLevelOfScore (Part002.calculateRiskScore store s).riskScore ∧
    ∀ x y : ℤ, x ≤ y →
      (Part002.riskLevelOfScore x).rank ≤ (Part002.riskLevelOfScore y).rank := by
  refine ⟨le_max_left 0 _, max_le (by norm_num) (min_le_left _ _), rfl, ?_⟩
  intro x y hxy
  simp only [Part002.riskLevelOfScore]
  split_ifs <;> simp only [RiskLevel.rank] <;> omega

/-- Witness for C1 at a concrete session and concrete scores 40 ≤ 90. -/
theorem claim_C1_witness :
    0 ≤ (Part002.calculateRiskScore store0 sessionNeutral).riskScore ∧
    (Part002.riskLevelOfScore 40).rank ≤ (Part002.riskLevelOfScore 90).rank :=
  ⟨(claim_C1 store0 sessionNeutral).1,
   (claim_C1 store0 sessionNeutral).2.2.2 40 90 (by norm_num)⟩

/-- A store that agrees with `store0` on the keys `sessionNeutral` looks up
but differs on every other key. -/
def storeOther : StoredFingerprints :=
  ⟨fun d => if d = "v1" then 0 else 99, fun _ => 77⟩

attribute [simp] storeOther

/-- C2 counterexample: the claim says `calculateRiskScore` does not read the
History Store and is a pure function of the session input alone; but the same
session scores differently under two different store states (the function
itself calls `getDeviceCount`/`getIPCount` on the localStorage-backed store
during scoring). -/
theorem claim_C2_counterexample :
    Part002.calculateRiskScore store0 sessionNeutral ≠
      Part002.calculateRiskScore store25 sessionNeutral := by
  have h0 : Part002.calculateRiskScore store0 sessionNeutral = ⟨0, .LOW⟩ := by
    norm_num; simp +decide; norm_num
  have h25 : Part002.calculateRiskScore store25 sessionNeutral = ⟨25, .LOW⟩ := by
    norm_num; simp +decide; norm_num
  rw [h0, h25]; decide

/-- C2 (amended): the Aggregator reads the History Store itself during
scoring, so it is deterministic in the session *together with* the two
history counters: any two store states that agree on
`getDeviceCount(visitorId)` and (when the network signal is present) on
`getIPCount(ip)` yield identical results for the same session. -/
theorem claim_C2 (store1 store2 : StoredFingerprints) (s : FingerprintSession)
    (hdev : getDeviceCount store1 s.deviceFingerprint.visitorId =
      getDeviceCount store2 s.deviceFingerprint.visitorId)
    (hip : ∀ ipa : IPAnalysis, s.ipAnalysis = some ipa →
      getIPCount store1 ipa.ip = getIPCount store2 ipa.ip) :
    Part002.calculateRiskScore store1 s = Part002.calculateRiskScore store2 s := by
  have h1 : Part002.historyDeviceStep store1 s = Part002.historyDeviceStep store2 s := by
    simp only [Part002.historyDeviceStep, hdev]
  have h2 : Part002.historyIPStep store1 s = Part002.historyIPStep store2 s := by
    cases h : s.ipAnalysis with
    | none => simp only [Part002.historyIPStep, h]
    | some ipa => simp only [Part002.historyIPStep, h, hip ipa h]
  have h3 : Part002.scoreRaw store1 s = Part002.scoreRaw store2 s := by
    simp only [Part002.scoreRaw, h1, h2]
  simp only [Part002.calculateRiskScore, Part002.clampedScore, h3]

/-- Witness for C2 at concrete stores that agree on the looked-up keys. -/
theorem claim_C2_witness :
    Part002.calculateRiskScore store0 sessionNeutral =
      Part002.calculateRiskScore storeOther sessionNeutral :=
  claim_C2 store0 storeOther sessionNeutral (by decide)
    (fun ipa h => by simp [sessionNeutral] at h)

/-- All factor labels `calculateRiskScore` (part_002) can ever push, in the
order the pushing statements occur in the source. -/
def allFactorLabels : List String :=
  ["very-low-fingerprint-confidence", "low-fingerprint-confidence",
   "medium-fingerprint-confidence"] ++
  ["confirmed-incognito", "likely-incognito", "possible-incognito"] ++
  [] ++ ["vpn-detected"] ++ ["tor-detected"] ++ ["proxy-detected"] ++
  ["hosting-provider"] ++ ["known-vpn-service"] ++ ["blacklisted-ip"] ++
  ["high-risk-ip"] ++ [] ++ ["bot-like-mouse-movement"] ++ ["bot-like-typing"] ++
  ["automated-input"] ++ ["scripted-mouse-movement"] ++
  ["superhuman-interaction-speed", "very-fast-interactions"] ++
  ["rapid-fire-interactions", "fast-interaction-burst"] ++ ["minimal-interaction"] ++
  ["frequent-device-reuse", "repeated-device-usage"] ++
  ["ip-abuse-pattern", "frequent-ip-usage"] ++ ["headless-browser"] ++
  ["automation-tool"] ++ ["bot-user-agent"] ++ ["outdated-browser"] ++
  ["invalid-screen-resolution"] ++ ["suspicious-timezone"] ++ []

/-- The factor list produced on any input selects, in order, a subsequence of
the fixed label catalogue. -/
theorem riskFactors_sublist (store : StoredFingerprints) (s : FingerprintSession) :
    List.Sublist (Part002.riskFactors store s) allFactorLabels := by
  unfold Part002.riskFactors allFactorLabels
  refine List.Sublist.append (List.Sublist.append (List.Sublist.append
    (List.Sublist.append (List.Sublist.append (List.Sublist.append
    (List.Sublist.append (List.Sublist.append (List.Sublist.append
    (List.Sublist.append (List.Sublist.append (List.Sublist.append
    (List.Sublist.append (List.Sublist.append (List.Sublist.append
    (List.Sublist.append (List.Sublist.append (List.Sublist.append
    (List.Sublist.append (List.Sublist.append (List.Sublist.append
    (List.Sublist.append (List.Sublist.append (List.Sublist.append
    (List.Sublist.append (List.Sublist.append ?_ ?_) ?_) ?_) ?_) ?_) ?_) ?_) ?_)
    ?_) ?_) ?_) ?_) ?_) ?_) ?_) ?_) ?_) ?_) ?_) ?_) ?_) ?_) ?_) ?_) ?_) ?_
  · simp only [Part002.fingerprintStep]; split_ifs <;> decide
  · simp only [Part002.incognitoStep]; split_ifs <;> decide
  · unfold Part002.ipBaseStep
    rcases s.ipAnalysis with _ | ipa <;> dsimp only <;> decide
  · unfold Part002.ipVPNStep
    rcases s.ipAnalysis with _ | ipa <;> dsimp only <;>
      first | decide | (split_ifs <;> decide)
  · unfold Part002.ipTorStep
    rcases s.ipAnalysis with _ | ipa <;> dsimp only <;>
      first | decide | (split_ifs <;> decide)
  · unfold Part002.ipProxyStep
    rcases s.ipAnalysis with _ | ipa <;> dsimp only <;>
      first | decide | (split_ifs <;> decide)
  · unfold Part002.ipHostingStep
    rcases s.ipAnalysis with _ | ipa <;> dsimp only <;>
      first | decide | (split_ifs <;> decide)
  · unfold Part002.ipKnownVPNStep
    rcases s.ipAnalysis with _ | ipa <;> dsimp only <;>
      first | decide | (split_ifs <;> decide)
  · unfold Part002.ipBlacklistStep
    rcases s.ipAnalysis with _ | ipa <;> dsimp only <;>
      first | decide | (split_ifs <;> decide)
  · unfold Part002.ipHighRiskStep
    rcases s.ipAnalysis with _ | ipa <;> dsimp only <;>
      first | decide | (split_ifs <;> decide)
  · simp only [Part002.patternBaseStep]; decide
  · simp only [Part002.mouseSpeedStep]; split_ifs <;> decide
  · simp only [Part002.typingSpeedStep]; split_ifs <;> decide
  · simp only [Part002.keystrokeStep]; split_ifs <;> decide
  · simp only [Part002.straightMouseStep]; split_ifs <;> decide
  · simp only [Part002.interactionSpeedStep]; split_ifs <;> decide
  · simp only [Part002.burstStep]; split_ifs <;> decide
  · simp only [Part002.idleStep]; split_ifs <;> decide
  · simp only [Part002.historyDeviceStep]; split_ifs <;> decide
  · unfold Part002.historyIPStep
    rcases s.ipAnalysis with _ | ipa <;> dsimp only <;>
      first | decide | (split_ifs <;> decide)
  · simp only [Part002.headlessStep]; split_ifs <;> decide
  · simp only [Part002.automationStep]; split_ifs <;> decide
  · simp only [Part002.botUAStep]; split_ifs <;> decide
  · simp only [Part002.outdatedStep]; split_ifs <;> decide
  · simp only [Part002.screenStep]; split_ifs <;> decide
  · simp only [Part002.timezoneStep]; split_ifs <;> decide
  · simp only [Part002.languageStep]; split_ifs <;> decide

/-- On any input, the internally computed factor list has no duplicates. -/
theorem riskFactors_nodup (store : StoredFingerprints) (s : FingerprintSession) :
    (Part002.riskFactors store s).Nodup :=
  List.Nodup.sublist (riskFactors_sublist store s) (by decide)

/-- Like `sessionNeutral` but with device confidence 0.65: the only rule that
fires is the +10 medium-confidence penalty. -/
def sessMedConf : FingerprintSession :=
  { sessionNeutral with
    deviceFingerprint := { visitorId := "v1", confidence := 0.65, timestamp := 0 } }

/-- Like `sessionNeutral` but with timezone `UTC`: the only rule that fires is
the +10 suspicious-timezone penalty. -/
def sessUTC : FingerprintSession := { sessionNeutral with timezone := "UTC" }

attribute [simp] sessMedConf sessUTC

/-- C3 counterexample: the claim says the value returned by
`calculateRiskScore` includes the ordered contributing-factor list; but the
function returns only `{ riskScore, riskLevel }` (part_002 line 221), so two
sessions with different factor lists can produce identical return values —
no consumer of the return value can recover the factors. -/
theorem claim_C3_counterexample :
    Part002.calculateRiskScore store0 sessMedConf =
        Part002.calculateRiskScore store0 sessUTC ∧
      Part002.riskFactors store0 sessMedConf ≠ Part002.riskFactors store0 sessUTC := by
  have hA : Part002.calculateRiskScore store0 sessMedConf = ⟨10, .LOW⟩ := by
    norm_num; simp +decide; norm_num
  have hB : Part002.calculateRiskScore store0 sessUTC = ⟨10, .LOW⟩ := by
    norm_num; simp +decide; norm_num
  have fA : Part002.riskFactors store0 sessMedConf = ["medium-fingerprint-confidence"] := by
    norm_num; simp +decide
  have fB : Part002.riskFactors store0 sessUTC = ["suspicious-timezone"] := by
    norm_num; simp +decide
  refine ⟨hA.trans hB.symm, ?_⟩
  rw [fA, fB]; decide

/-- C3 (amended): the returned value carries exactly the numeric score and the
threshold-derived tier — the ordered factor list is computed internally
(duplicate-free) but is dropped at the return statement and is not part of the
returned value. -/
theorem claim_C3 (store : StoredFingerprints) (s : FingerprintSession) :
    Part002.calculateRiskScore store s =
        ⟨Part002.clampedScore store s,
          Part002.riskLevelOfScore (Part002.clampedScore store s)⟩ ∧
      (Part002.riskFactors store s).Nodup :=
  ⟨rfl, riskFactors_nodup store s⟩

/-- C4: a missing optional signal is representable for the network signal
(`ipAnalysis = null`) and, for the privacy-mode signal, is what the incognito
producer's failure fallback delivers (`isIncognito = false`); in either case
the Aggregator still returns a result (the embedding is total — the source
never throws on these inputs) whose score is clamped into `[0, 100]`, and the
absent signal's terms — all eight network-derived additions plus the
IP-history addition, resp. the privacy addition — contribute exactly 0. -/
theorem claim_C4 (store : StoredFingerprints) (s : FingerprintSession) :
    (s.ipAnalysis = none →
      (Part002.ipBaseStep s).1 + (Part002.ipVPNStep s).1 + (Part002.ipTorStep s).1 +
        (Part002.ipProxyStep s).1 + (Part002.ipHostingStep s).1 +
        (Part002.ipKnownVPNStep s).1 + (Part002.ipBlacklistStep s).1 +
        (Part002.ipHighRiskStep s).1 + (Part002.historyIPStep store s).1 = 0) ∧
    (s.incognitoDetection.isIncognito = false → (Part002.incognitoStep s).1 = 0) ∧
    0 ≤ (Part002.calculateRiskScore store s).riskScore ∧
    (Part002.calculateRiskScore store s).riskScore ≤ 100 := by
  refine ⟨?_, ?_, le_max_left 0 _, max_le (by norm_num) (min_le_left _ _)⟩
  · intro h
    simp only [Part002.ipBaseStep, Part002.ipVPNStep, Part002.ipTorStep,
      Part002.ipProxyStep, Part002.ipHostingStep, Part002.ipKnownVPNStep,
      Part002.ipBlacklistStep, Part002.ipHighRiskStep, Part002.historyIPStep, h]
    norm_num
  · intro h
    simp only [Part002.incognitoStep, h]
    norm_num

/-- Witness for C4 at a concrete session with both signals absent. -/
theorem claim_C4_witness :
    (Part002.ipBaseStep sessionNeutral).1 + (Part002.ipVPNStep sessionNeutral).1 +
        (Part002.ipTorStep sessionNeutral).1 + (Part002.ipProxyStep sessionNeutral).1 +
        (Part002.ipHostingStep sessionNeutral).1 +
        (Part002.ipKnownVPNStep sessionNeutral).1 +
        (Part002.ipBlacklistStep sessionNeutral).1 +
        (Part002.ipHighRiskStep sessionNeutral).1 +
        (Part002.historyIPStep store0 sessionNeutral).1 = 0 ∧
      (Part002.incognitoStep sessionNeutral).1 = 0 :=
  ⟨(claim_C4 store0 sessionNeutral).1 rfl, (claim_C4 store0 sessionNeutral).2.1 rfl⟩

/-- Scenario A session: device confidence 0.2, both optional signals absent,
benign behavior (10 interactions over 60000 ms), empty history. -/
def sessLowConf : FingerprintSession :=
  { sessionNeutral with
    deviceFingerprint := { visitorId := "v1", confidence := 0.2, timestamp := 0 } }

attribute [simp] sessLowConf

/-- C5 counterexample: the two risk calculators disagree already on Scenario
A's session — the part_002 Aggregator scores it 40, the
`risk-calculator.ts` variant scores it 30. -/
theorem claim_C5_counterexample :
    ((Part002.calculateRiskScore store0 sessLowConf).riskScore : ℚ) ≠
      (RiskCalculatorTs.calculateRiskScore store0 sessLowConf).riskScore := by
  have hP : Part002.calculateRiskScore store0 sessLowConf = ⟨40, .MEDIUM⟩ := by
    norm_num; simp +decide; norm_num
  have hR : RiskCalculatorTs.calculateRiskScore store0 sessLowConf = ⟨30, .MEDIUM⟩ := by
    norm_num; simp +decide
  rw [hP, hR]; norm_num

/-- C5 (amended): the two implementations are distinct scoring functions that
need not agree on a session's riskScore; what they do share is the output
discipline — each clamps its returned score into `[0, 100]`. -/
theorem claim_C5 (store : StoredFingerprints) (s : FingerprintSession) :
    0 ≤ (Part002.calculateRiskScore store s).riskScore ∧
    (Part002.calculateRiskScore store s).riskScore ≤ 100 ∧
    0 ≤ (RiskCalculatorTs.calculateRiskScore store s).riskScore ∧
    (RiskCalculatorTs.calculateRiskScore store s).riskScore ≤ 100 :=
  ⟨le_max_left 0 _, max_le (by norm_num) (min_le_left _ _),
   le_max_left 0 _, max_le (by norm_num) (min_le_left _ _)⟩

/-- The Scenario A session of `sessLowConf`, except that its timezone is
`UTC` — a field Scenario A leaves unconstrained. -/
def sessLowConfUTC : FingerprintSession := { sessLowConf with timezone := "UTC" }

attribute [simp] sessLowConfUTC

/-- C6 counterexample: the claim quantifies over *every* session with device
confidence 0.2, both optional signals absent, benign 10-interaction/60000 ms
behavior and zero history, but the Aggregator also scores fields the claim
does not constrain; with timezone `UTC` such a session gains the +10
suspicious-timezone penalty and scores 50, not 40. -/
theorem claim_C6_counterexample :
    (Part002.calculateRiskScore store0 sessLowConfUTC).riskScore ≠ 40 := by
  have h : Part002.calculateRiskScore store0 sessLowConfUTC = ⟨50, .MEDIUM⟩ := by
    norm_num; simp +decide; norm_num
  rw [h]; decide

/-- C6 (amended): any session realizing Scenario A — device confidence 0.2,
no privacy detection, no network signal, no anomaly tags, 10 total
interactions over a 60000 ms session at 10 interactions per minute, history
counter 0 — scores exactly 40 with tier MEDIUM, *provided* the fields
Scenario A leaves unconstrained are neutral: the user agent, screen
resolution, timezone and language fire none of the remaining checks. -/
theorem claim_C6 (store : StoredFingerprints) (s : FingerprintSession)
    (h1 : s.deviceFingerprint.confidence = 0.2)
    (h2 : s.incognitoDetection.isIncognito = false)
    (h3 : s.ipAnalysis = none)
    (h4 : s.behaviorAnalysis.suspiciousPatterns = [])
    (h5 : Part002.totalInteractions s = 10)
    (h6 : s.behaviorAnalysis.timeOnPage = 60000)
    (h7 : s.behaviorAnalysis.interactionSpeed = 10)
    (h8 : getDeviceCount store s.deviceFingerprint.visitorId = 0)
    (h9 : ¬(jsIncludes (jsToLower s.userAgent) "headless" = true ∨
        jsIncludes (jsToLower s.userAgent) "phantom" = true ∨
        jsIncludes (jsToLower s.userAgent) "selenium" = true ∨
        jsIncludes (jsToLower s.userAgent) "chromedriver" = true))
    (h10 : ¬(jsIncludes (jsToLower s.userAgent) "puppeteer" = true ∨
        jsIncludes (jsToLower s.userAgent) "playwright" = true ∨
        jsIncludes (jsToLower s.userAgent) "webdriver" = true))
    (h11 : ¬(jsIncludes (jsToLower s.userAgent) "bot" = true ∨
        jsIncludes (jsToLower s.userAgent) "crawler" = true ∨
        jsIncludes (jsToLower s.userAgent) "spider" = true))
    (h12 : ¬(jsIncludes (jsToLower s.userAgent) "msie" = true ∨
        jsIncludes (jsToLower s.userAgent) "internet explorer" = true))
    (h13 : ¬(s.screenResolution = "0x0" ∨ s.screenResolution = "1x1"))
    (h14 : ¬(s.timezone = "" ∨ s.timezone = "UTC"))
    (h15 : ¬(s.language = "" ∨ s.language = "en" ∨ s.language = "en-US")) :
    Part002.calculateRiskScore store s = ⟨40, .MEDIUM⟩ := by
  have hfp : Part002.fingerprintStep s = (40, ["very-low-fingerprint-confidence"]) := by
    simp only [Part002.fingerprintStep, h1]; norm_num
  have hinc : Part002.incognitoStep s = (0, []) := by
    simp only [Part002.incognitoStep, h2]; simp
  have hip1 : Part002.ipBaseStep s = (0, []) := by simp only [Part002.ipBaseStep, h3]
  have hip2 : Part002.ipVPNStep s = (0, []) := by simp only [Part002.ipVPNStep, h3]
  have hip3 : Part002.ipTorStep s = (0, []) := by simp only [Part002.ipTorStep, h3]
  have hip4 : Part002.ipProxyStep s = (0, []) := by simp only [Part002.ipProxyStep, h3]
  have hip5 : Part002.ipHostingStep s = (0, []) := by simp only [Part002.ipHostingStep, h3]
  have hip6 : Part002.ipKnownVPNStep s = (0, []) := by simp only [Part002.ipKnownVPNStep, h3]
  have hip7 : Part002.ipBlacklistStep s = (0, []) := by simp only [Part002.ipBlacklistStep, h3]
  have hip8 : Part002.ipHighRiskStep s = (0, []) := by simp only [Part002.ipHighRiskStep, h3]
  have hpb : Part002.patternBaseStep s = (0, []) := by
    simp only [Part002.patternBaseStep, h4]; norm_num
  have hm1 : Part002.mouseSpeedStep s = (0, []) := by
    simp only [Part002.mouseSpeedStep, h4]; simp
  have hm2 : Part002.typingSpeedStep s = (0, []) := by
    simp only [Part002.typingSpeedStep, h4]; simp
  have hm3 : Part002.keystrokeStep s = (0, []) := by
    simp only [Part002.keystrokeStep, h4]; simp
  have hm4 : Part002.straightMouseStep s = (0, []) := by
    simp only [Part002.straightMouseStep, h4]; simp
  have hsp : Part002.interactionSpeedStep s = (0, []) := by
    simp only [Part002.interactionSpeedStep, h7]; norm_num
  have hbu : Part002.burstStep s = (0, []) := by
    simp only [Part002.burstStep, h5, h6]; norm_num
  have hid : Part002.idleStep s = (0, []) := by
    simp only [Part002.idleStep, h5, h6]; norm_num
  have hhd : Part002.historyDeviceStep store s = (0, []) := by
    simp only [Part002.historyDeviceStep, h8]; norm_num
  have hhi : Part002.historyIPStep store s = (0, []) := by
    simp only [Part002.historyIPStep, h3]
  have hua1 : Part002.headlessStep s = (0, []) := by
    simp only [Part002.headlessStep]; rw [if_neg h9]
  have hua2 : Part002.automationStep s = (0, []) := by
    simp only [Part002.automationStep]; rw [if_neg h10]
  have hua3 : Part002.botUAStep s = (0, []) := by
    simp only [Part002.botUAStep]; rw [if_neg h11]
  have hua4 : Part002.outdatedStep s = (0, []) := by
    simp only [Part002.outdatedStep]; rw [if_neg h12]
  have hsc : Part002.screenStep s = (0, []) := by
    simp only [Part002.screenStep]; rw [if_neg h13]
  have htz : Part002.timezoneStep s = (0, []) := by
    simp only [Part002.timezoneStep]; rw [if_neg h14]
  have hlg : Part002.languageStep s = (0, []) := by
    simp only [Part002.languageStep]; rw [if_neg h15]
  have hsr : Part002.scoreRaw store s = 40 := by
    simp only [Part002.scoreRaw, hfp, hinc, hip1, hip2, hip3, hip4, hip5, hip6, hip7,
      hip8, hpb, hm1, hm2, hm3, hm4, hsp, hbu, hid, hhd, hhi, hua1, hua2, hua3, hua4,
      hsc, htz, hlg]
    norm_num
  have hcl : Part002.clampedScore store s = 40 := by
    simp only [Part002.clampedScore, hsr, jsRound]; norm_num
  simp only [Part002.calculateRiskScore, hcl, Part002.riskLevelOfScore]
  norm_num

/-- Witness for C6: the concrete Scenario A session scores 40 / MEDIUM. -/
theorem claim_C6_witness :
    Part002.calculateRiskScore store0 sessLowConf = ⟨40, .MEDIUM⟩ :=
  claim_C6 store0 sessLowConf rfl rfl rfl rfl (by norm_num) (by norm_num) (by norm_num)
    rfl (by decide) (by decide) (by decide) (by decide) (by decide) (by decide)
    (by decide)

/-- If the `fingerprintStep` pushed no label, it added no points. -/
theorem fingerprintStep_fst_zero (s : FingerprintSession)
    (h : (Part002.fingerprintStep s).2 = []) : (Part002.fingerprintStep s).1 = 0 := by
  revert h; simp only [Part002.fingerprintStep]; split_ifs <;> simp

/-- If the `incognitoStep` pushed no label, it added no points. -/
theorem incognitoStep_fst_zero (s : FingerprintSession)
    (h : (Part002.incognitoStep s).2 = []) : (Part002.incognitoStep s).1 = 0 := by
  revert h; simp only [Part002.incognitoStep]; split_ifs <;> simp

/-- If the `mouseSpeedStep` pushed no label, it added no points. -/
theorem mouseSpeedStep_fst_zero (s : FingerprintSession)
    (h : (Part002.mouseSpeedStep s).2 = []) : (Part002.mouseSpeedStep s).1 = 0 := by
  revert h; simp only [Part002.mouseSpeedStep]; split_ifs <;> simp

/-- If the `typingSpeedStep` pushed no label, it added no points. -/
theorem typingSpeedStep_fst_zero (s : FingerprintSession)
    (h : (Part002.typingSpeedStep s).2 = []) : (Part002.typingSpeedStep s).1 = 0 := by
  revert h; simp only [Part002.typingSpeedStep]; split_ifs <;> simp

/-- If the `keystrokeStep` pushed no label, it added no points. -/
theorem keystrokeStep_fst_zero (s : FingerprintSession)
    (h : (Part002.keystrokeStep s).2 = []) : (Part002.keystrokeStep s).1 = 0 := by
  revert h; simp only [Part002.keystrokeStep]; split_ifs <;> simp

/-- If the `straightMouseStep` pushed no label, it added no points. -/
theorem straightMouseStep_fst_zero (s : FingerprintSession)
    (h : (Part002.straightMouseStep s).2 = []) : (Part002.straightMouseStep s).1 = 0 := by
  revert h; simp only [Part002.straightMouseStep]; split_ifs <;> simp

/-- If the `interactionSpeedStep` pushed no label, it added no points. -/
theorem interactionSpeedStep_fst_zero (s : FingerprintSession)
    (h : (Part002.interactionSpeedStep s).2 = []) : (Part002.interactionSpeedStep s).1 = 0 := by
  revert h; simp only [Part002.interactionSpeedStep]; split_ifs <;> simp

/-- If the `burstStep` pushed no label, it added no points. -/
theorem burstStep_fst_zero (s : FingerprintSession)
    (h : (Part002.burstStep s).2 = []) : (Part002.burstStep s).1 = 0 := by
  revert h; simp only [Part002.burstStep]; split_ifs <;> simp

/-- If the `idleStep` pushed no label, it added no points. -/
theorem idleStep_fst_zero (s : FingerprintSession)
    (h : (Part002.idleStep s).2 = []) : (Part002.idleStep s).1 = 0 := by
  revert h; simp only [Part002.idleStep]; split_ifs <;> simp

/-- If the `headlessStep` pushed no label, it added no points. -/
theorem headlessStep_fst_zero (s : FingerprintSession)
    (h : (Part002.headlessStep s).2 = []) : (Part002.headlessStep s).1 = 0 := by
  revert h; simp only [Part002.headlessStep]; split_ifs <;> simp

/-- If the `automationStep` pushed no label, it added no points. -/
theorem automationStep_fst_zero (s : FingerprintSession)
    (h : (Part002.automationStep s).2 = []) : (Part002.automationStep s).1 = 0 := by
  revert h; simp only [Part002.automationStep]; split_ifs <;> simp

/-- If the `botUAStep` pushed no label, it added no points. -/
theorem botUAStep_fst_zero (s : FingerprintSession)
    (h : (Part002.botUAStep s).2 = []) : (Part002.botUAStep s).1 = 0 := by
  revert h; simp only [Part002.botUAStep]; split_ifs <;> simp

/-- If the `outdatedStep` pushed no label, it added no points. -/
theorem outdatedStep_fst_zero (s : FingerprintSession)
    (h : (Part002.outdatedStep s).2 = []) : (Part002.outdatedStep s).1 = 0 := by
  revert h; simp only [Part002.outdatedStep]; split_ifs <;> simp

/-- If the `screenStep` pushed no label, it added no points. -/
theorem screenStep_fst_zero (s : FingerprintSession)
    (h : (Part002.screenStep s).2 = []) : (Part002.screenStep s).1 = 0 := by
  revert h; simp only [Part002.screenStep]; split_ifs <;> simp

/-- If the `timezoneStep` pushed no label, it added no points. -/
theorem timezoneStep_fst_zero (s : FingerprintSession)
    (h : (Part002.timezoneStep s).2 = []) : (Part002.timezoneStep s).1 = 0 := by
  revert h; simp only [Part002.timezoneStep]; split_ifs <;> simp

/-- If the `ipVPNStep` pushed no label, it added no points. -/
theorem ipVPNStep_fst_zero (s : FingerprintSession)
    (h : (Part002.ipVPNStep s).2 = []) : (Part002.ipVPNStep s).1 = 0 := by
  revert h; unfold Part002.ipVPNStep
  rcases s.ipAnalysis with _ | ipa <;> dsimp only <;>
    first | (split_ifs <;> simp) | simp

/-- If the `ipTorStep` pushed no label, it added no points. -/
theorem ipTorStep_fst_zero (s : FingerprintSession)
    (h : (Part002.ipTorStep s).2 = []) : (Part002.ipTorStep s).1 = 0 := by
  revert h; unfold Part002.ipTorStep
  rcases s.ipAnalysis with _ | ipa <;> dsimp only <;>
    first | (split_ifs <;> simp) | simp

/-- If the `ipProxyStep` pushed no label, it added no points. -/
theorem ipProxyStep_fst_zero (s : FingerprintSession)
    (h : (Part002.ipProxyStep s).2 = []) : (Part002.ipProxyStep s).1 = 0 := by
  revert h; unfold Part002.ipProxyStep
  rcases s.ipAnalysis with _ | ipa <;> dsimp only <;>
    first | (split_ifs <;> simp) | simp

/-- If the `ipHostingStep` pushed no label, it added no points. -/
theorem ipHostingStep_fst_zero (s : FingerprintSession)
    (h : (Part002.ipHostingStep s).2 = []) : (Part002.ipHostingStep s).1 = 0 := by
  revert h; unfold Part002.ipHostingStep
  rcases s.ipAnalysis with _ | ipa <;> dsimp only <;>
    first | (split_ifs <;> simp) | simp

/-- If the `ipKnownVPNStep` pushed no label, it added no points. -/
theorem ipKnownVPNStep_fst_zero (s : FingerprintSession)
    (h : (Part002.ipKnownVPNStep s).2 = []) : (Part002.ipKnownVPNStep s).1 = 0 := by
  revert h; unfold Part002.ipKnownVPNStep
  rcases s.ipAnalysis with _ | ipa <;> dsimp only <;>
    first | (split_ifs <;> simp) | simp

/-- If the `ipBlacklistStep` pushed no label, it added no points. -/
theorem ipBlacklistStep_fst_zero (s : FingerprintSession)
    (h : (Part002.ipBlacklistStep s).2 = []) : (Part002.ipBlacklistStep s).1 = 0 := by
  revert h; unfold Part002.ipBlacklistStep
  rcases s.ipAnalysis with _ | ipa <;> dsimp only <;>
    first | (split_ifs <;> simp) | simp

/-- If the `ipHighRiskStep` pushed no label, it added no points. -/
theorem ipHighRiskStep_fst_zero (s : FingerprintSession)
    (h : (Part002.ipHighRiskStep s).2 = []) : (Part002.ipHighRiskStep s).1 = 0 := by
  revert h; unfold Part002.ipHighRiskStep
  rcases s.ipAnalysis with _ | ipa <;> dsimp only <;>
    first | (split_ifs <;> simp) | simp

/-- If the device-history step pushed no label, it added no points. -/
theorem historyDeviceStep_fst_zero (store : StoredFingerprints) (s : FingerprintSession)
    (h : (Part002.historyDeviceStep store s).2 = []) :
    (Part002.historyDeviceStep store s).1 = 0 := by
  revert h; simp only [Part002.historyDeviceStep]; split_ifs <;> simp

/-- If the IP-history step pushed no label, it added no points. -/
theorem historyIPStep_fst_zero (store : StoredFingerprints) (s : FingerprintSession)
    (h : (Part002.historyIPStep store s).2 = []) :
    (Part002.historyIPStep store s).1 = 0 := by
  revert h; unfold Part002.historyIPStep
  rcases s.ipAnalysis with _ | ipa <;> dsimp only <;>
    first | (split_ifs <;> simp) | simp

/-- Like `sessionNeutral` but with language `en`: the default-language
adjustment adds 2 points without pushing any factor label. -/
def sessEn : FingerprintSession := { sessionNeutral with language := "en" }

attribute [simp] sessEn

/-- C7 counterexample: the claim says every scoring step that adds points also
appends a factor label; but on `sessEn` the pre-clamp score is 2 (the
default-language step added points) while the factor list stays empty. -/
theorem claim_C7_counterexample :
    Part002.scoreRaw store0 sessEn = 2 ∧ Part002.riskFactors store0 sessEn = [] := by
  constructor
  · norm_num; simp +decide
  · norm_num; simp +decide

/-- C7 (amended): the factor list never contains duplicates, but three
additions push no label at all — the scaled network reputation score, the
12-points-per-anomaly-tag base, and the default-language +2; every other
step appends a label whenever it adds points, so an empty factor list means
the whole pre-clamp score comes from those three unlabeled additions. -/
theorem claim_C7 (store : StoredFingerprints) (s : FingerprintSession) :
    (Part002.riskFactors store s).Nodup ∧
    (Part002.ipBaseStep s).2 = [] ∧ (Part002.patternBaseStep s).2 = [] ∧
    (Part002.languageStep s).2 = [] ∧
    (Part002.riskFactors store s = [] →
      Part002.scoreRaw store s =
        (Part002.ipBaseStep s).1 + (Part002.patternBaseStep s).1 +
          (Part002.languageStep s).1) := by
  refine ⟨riskFactors_nodup store s, ?_, rfl, ?_, ?_⟩
  · unfold Part002.ipBaseStep; rcases s.ipAnalysis with _ | ipa <;> rfl
  · simp only [Part002.languageStep]; split_ifs <;> rfl
  · intro h
    simp only [Part002.riskFactors, List.append_eq_nil, and_assoc] at h
    obtain ⟨h1, h2, h3, h4, h5, h6, h7, h8, h9, h10, h11, h12, h13, h14, h15, h16,
      h17, h18, h19, h20, h21, h22, h23, h24, h25, h26, h27⟩ := h
    simp only [Part002.scoreRaw, fingerprintStep_fst_zero s h1,
      incognitoStep_fst_zero s h2, ipVPNStep_fst_zero s h4, ipTorStep_fst_zero s h5,
      ipProxyStep_fst_zero s h6, ipHostingStep_fst_zero s h7,
      ipKnownVPNStep_fst_zero s h8, ipBlacklistStep_fst_zero s h9,
      ipHighRiskStep_fst_zero s h10, mouseSpeedStep_fst_zero s h12,
      typingSpeedStep_fst_zero s h13, keystrokeStep_fst_zero s h14,
      straightMouseStep_fst_zero s h15, interactionSpeedStep_fst_zero s h16,
      burstStep_fst_zero s h17, idleStep_fst_zero s h18,
      historyDeviceStep_fst_zero store s h19, historyIPStep_fst_zero store s h20,
      headlessStep_fst_zero s h21, automationStep_fst_zero s h22,
      botUAStep_fst_zero s h23, outdatedStep_fst_zero s h24, screenStep_fst_zero s h25,
      timezoneStep_fst_zero s h26]
    ring

/-- Witness for C7: on the concrete session `sessEn` the factor list is empty
and the whole raw score is the three unlabeled additions. -/
theorem claim_C7_witness :
    (Part002.riskFactors store0 sessEn).Nodup ∧
      Part002.scoreRaw store0 sessEn =
        (Part002.ipBaseStep sessEn).1 + (Part002.patternBaseStep sessEn).1 +
          (Part002.languageStep sessEn).1 := by
  have hf : Part002.riskFactors store0 sessEn = [] := by norm_num; simp +decide
  exact ⟨(claim_C7 store0 sessEn).1, (claim_C7 store0 sessEn).2.2.2.2 hf⟩

/-- A network signal whose producer-native risk score is out of range (200,
declared range 0-100), with no flags or threat tags. -/
def ipa200 : IPAnalysis :=
  { ip := "203.0.113.5", country := "X", region := "X", city := "X", isp := "X",
    isVPN := false, isTor := false, isProxy := false, riskScore := 200,
    threatTypes := [] }

/-- The same network signal with the risk score clamped to its declared
maximum 100. -/
def ipa100 : IPAnalysis := { ipa200 with riskScore := 100 }

/-- `sessionNeutral` with the out-of-range network signal attached. -/
def sessIp200 : FingerprintSession := { sessionNeutral with ipAnalysis := some ipa200 }

/-- `sessionNeutral` with the clamped network signal attached. -/
def sessIp100 : FingerprintSession := { sessionNeutral with ipAnalysis := some ipa100 }

/-- Behavior with a negative mouse counter (malformed producer output). -/
def behaviorNeg : BehaviorAnalysis :=
  { mouseMovements := -60, keystrokes := 110, scrollEvents := 0, timeOnPage := 4000,
    interactionSpeed := 10, suspiciousPatterns := [] }

/-- `behaviorNeg` with the negative counter clamped to 0. -/
def behaviorNegClamped : BehaviorAnalysis :=
  { mouseMovements := 0, keystrokes := 110, scrollEvents := 0, timeOnPage := 4000,
    interactionSpeed := 10, suspiciousPatterns := [] }

/-- `sessionNeutral` carrying the malformed behavior report. -/
def sessNeg : FingerprintSession := { sessionNeutral with behaviorAnalysis := behaviorNeg }

/-- `sessionNeutral` carrying the clamped behavior report. -/
def sessNegClamped : FingerprintSession :=
  { sessionNeutral with behaviorAnalysis := behaviorNegClamped }

attribute [simp] ipa200 ipa100 sessIp200 sessIp100 behaviorNeg behaviorNegClamped
  sessNeg sessNegClamped

/-- C8 counterexample: the Aggregator does **not** normalize malformed signal
values before scoring.  An out-of-range `reputationScore` of 200 scores
differently (80, HIGH) from its clamped value 100 (40, MEDIUM), and a
negative event count scores differently (0) from its clamped value (20),
so "same result as with the values clamped" fails on both counts. -/
theorem claim_C8_counterexample :
    Part002.calculateRiskScore store0 sessIp200 ≠
        Part002.calculateRiskScore store0 sessIp100 ∧
      Part002.calculateRiskScore store0 sessNeg ≠
        Part002.calculateRiskScore store0 sessNegClamped := by
  have h1 : Part002.calculateRiskScore store0 sessIp200 = ⟨80, .HIGH⟩ := by
    norm_num; simp +decide; norm_num
  have h2 : Part002.calculateRiskScore store0 sessIp100 = ⟨40, .MEDIUM⟩ := by
    norm_num; simp +decide; norm_num
  have h3 : Part002.calculateRiskScore store0 sessNeg = ⟨0, .LOW⟩ := by
    norm_num; simp +decide; norm_num
  have h4 : Part002.calculateRiskScore store0 sessNegClamped = ⟨20, .LOW⟩ := by
    norm_num; simp +decide; norm_num
  rw [h1, h2, h3, h4]
  exact ⟨by decide, by decide⟩

/-- C8 (amended): the Aggregator never rejects malformed input — it always
returns a result with the final score clamped into `[0, 100]` — and an
out-of-range device confidence *behaves* as if clamped into `[0, 1]` (the
ladder's thresholds all lie inside `(0, 1]`); but out-of-range
`reputationScore` and negative event counts flow into the score unnormalized
(see the counterexample). -/
theorem claim_C8 (store : StoredFingerprints) (s : FingerprintSession) (c : ℚ) :
    Part002.calculateRiskScore store
        { s with deviceFingerprint :=
            { s.deviceFingerprint with confidence := max 0 (min 1 c) } } =
      Part002.calculateRiskScore store
        { s with deviceFingerprint := { s.deviceFingerprint with confidence := c } } ∧
    0 ≤ (Part002.calculateRiskScore store s).riskScore ∧
    (Part002.calculateRiskScore store s).riskScore ≤ 100 := by
  have hiff : ∀ t : ℚ, 0 < t → t ≤ 1 → ((max 0 (min 1 c) < t) ↔ (c < t)) := by
    intro t ht0 ht1
    rw [max_lt_iff, min_lt_iff]
    constructor
    · rintro ⟨-, h1 | hc⟩
      · linarith
      · exact hc
    · intro hc
      exact ⟨ht0, Or.inr hc⟩
  have hfp : Part002.fingerprintStep
      { s with deviceFingerprint :=
          { s.deviceFingerprint with confidence := max 0 (min 1 c) } } =
      Part002.fingerprintStep
        { s with deviceFingerprint := { s.deviceFingerprint with confidence := c } } := by
    unfold Part002.fingerprintStep
    dsimp only
    simp only [hiff 0.3 (by norm_num) (by norm_num), hiff 0.5 (by norm_num) (by norm_num),
      hiff 0.7 (by norm_num) (by norm_num)]
  refine ⟨?_, le_max_left 0 _, max_le (by norm_num) (min_le_left _ _)⟩
  simp only [Part002.calculateRiskScore, Part002.clampedScore, Part002.scoreRaw, hfp]
  rfl

/-- C9: holding every other input fixed, increasing the network signal's
`reputationScore` never decreases the returned risk score (the score enters
the sum as `reputationScore * 0.4` and rounding and clamping are monotone). -/
theorem claim_C9 (store : StoredFingerprints) (s : FingerprintSession)
    (ipa : IPAnalysis) (r1 r2 : ℚ) (hr : r1 ≤ r2) :
    (Part002.calculateRiskScore store
        { s with ipAnalysis := some { ipa with riskScore := r1 } }).riskScore ≤
      (Part002.calculateRiskScore store
        { s with ipAnalysis := some { ipa with riskScore := r2 } }).riskScore := by
  let u : ℚ → FingerprintSession :=
    fun r => { s with ipAnalysis := some { ipa with riskScore := r } }
  show (Part002.calculateRiskScore store (u r1)).riskScore ≤
    (Part002.calculateRiskScore store (u r2)).riskScore
  have hraw : Part002.scoreRaw store (u r1) ≤ Part002.scoreRaw store (u r2) := by
    have hb : ∀ r : ℚ, (Part002.ipBaseStep (u r)).1 = r * 0.4 := fun r => rfl
    have e01 : Part002.fingerprintStep (u r1) = Part002.fingerprintStep (u r2) := rfl
    have e02 : Part002.incognitoStep (u r1) = Part002.incognitoStep (u r2) := rfl
    have e03 : Part002.ipVPNStep (u r1) = Part002.ipVPNStep (u r2) := rfl
    have e04 : Part002.ipTorStep (u r1) = Part002.ipTorStep (u r2) := rfl
    have e05 : Part002.ipProxyStep (u r1) = Part002.ipProxyStep (u r2) := rfl
    have e06 : Part002.ipHostingStep (u r1) = Part002.ipHostingStep (u r2) := rfl
    have e07 : Part002.ipKnownVPNStep (u r1) = Part002.ipKnownVPNStep (u r2) := rfl
    have e08 : Part002.ipBlacklistStep (u r1) = Part002.ipBlacklistStep (u r2) := rfl
    have e09 : Part002.ipHighRiskStep (u r1) = Part002.ipHighRiskStep (u r2) := rfl
    have e10 : Part002.patternBaseStep (u r1) = Part002.patternBaseStep (u r2) := rfl
    have e11 : Part002.mouseSpeedStep (u r1) = Part002.mouseSpeedStep (u r2) := rfl
    have e12 : Part002.typingSpeedStep (u r1) = Part002.typingSpeedStep (u r2) := rfl
    have e13 : Part002.keystrokeStep (u r1) = Part002.keystrokeStep (u r2) := rfl
    have e14 : Part002.straightMouseStep (u r1) = Part002.straightMouseStep (u r2) := rfl
    have e15 : Part002.interactionSpeedStep (u r1) = Part002.interactionSpeedStep (u r2) := rfl
    have e16 : Part002.burstStep (u r1) = Part002.burstStep (u r2) := rfl
    have e17 : Part002.idleStep (u r1) = Part002.idleStep (u r2) := rfl
    have e18 : Part002.headlessStep (u r1) = Part002.headlessStep (u r2) := rfl
    have e19 : Part002.automationStep (u r1) = Part002.automationStep (u r2) := rfl
    have e20 : Part002.botUAStep (u r1) = Part002.botUAStep (u r2) := rfl
    have e21 : Part002.outdatedStep (u r1) = Part002.outdatedStep (u r2) := rfl
    have e22 : Part002.screenStep (u r1) = Part002.screenStep (u r2) := rfl
    have e23 : Part002.timezoneStep (u r1) = Part002.timezoneStep (u r2) := rfl
    have e24 : Part002.languageStep (u r1) = Part002.languageStep (u r2) := rfl
    have e25 : Part002.historyDeviceStep store (u r1) = Part002.historyDeviceStep store (u r2) := rfl
    have e26 : Part002.historyIPStep store (u r1) = Part002.historyIPStep store (u r2) := rfl
    simp only [Part002.scoreRaw, hb, e01, e02, e03, e04, e05, e06, e07, e08, e09, e10, e11, e12, e13, e14, e15, e16, e17, e18, e19, e20, e21, e22, e23, e24, e25, e26]
    have hmul : r1 * 0.4 ≤ r2 * 0.4 :=
      mul_le_mul_of_nonneg_right hr (by norm_num)
    linarith
  have hround : jsRound (Part002.scoreRaw store (u r1)) ≤
      jsRound (Part002.scoreRaw store (u r2)) := by
    unfold jsRound
    exact Int.floor_le_floor (by linarith)
  show Part002.clampedScore store (u r1) ≤ Part002.clampedScore store (u r2)
  unfold Part002.clampedScore
  exact max_le_max le_rfl (min_le_min le_rfl hround)

/-- Witness for C9 at reputation scores 10 ≤ 20 on a concrete session. -/
theorem claim_C9_witness :
    (Part002.calculateRiskScore store0
        { sessionNeutral with ipAnalysis := some { ipa200 with riskScore := 10 } }).riskScore ≤
      (Part002.calculateRiskScore store0
        { sessionNeutral with ipAnalysis := some { ipa200 with riskScore := 20 } }).riskScore :=
  claim_C9 store0 sessionNeutral ipa200 10 20 (by norm_num)

/-- `sessionNeutral` with a user agent hitting both the headless marker and a
bot marker. -/
def sessHB : FingerprintSession := { sessionNeutral with userAgent := "headlesscrawler" }

attribute [simp] sessHB

/-- C10 counterexample: the claim says a headless-marker user agent raises the
pre-clamp score by exactly 60 over a marker-free one; but a user agent can hit
the headless check *and* the bot check at once (`headlesscrawler`), raising
the raw score by 100, not 60, over the otherwise-identical clean session. -/
theorem claim_C10_counterexample :
    jsIncludes (jsToLower sessHB.userAgent) "headless" = true ∧
      Part002.scoreRaw store0 sessHB ≠ Part002.scoreRaw store0 sessionNeutral + 60 := by
  refine ⟨by decide, ?_⟩
  have h1 : Part002.scoreRaw store0 sessHB = 100 := by
    norm_num; simp +decide; norm_num
  have h2 : Part002.scoreRaw store0 sessionNeutral = 0 := by
    norm_num; simp +decide
  rw [h1, h2]; norm_num

/-- C10 (amended): the score does depend on the session's `userAgent`, an
input outside the spec's five-argument contract; if the user agent hits one of
the headless markers (`headless` / `phantom` / `selenium` / `chromedriver`)
and none of the other user-agent checks, then the pre-clamp score is exactly
60 points above that of the otherwise-identical session whose user agent hits
no user-agent check at all, and the factor `headless-browser` is recorded. -/
theorem claim_C10 (store : StoredFingerprints) (s : FingerprintSession)
    (ua1 ua2 : String)
    (hH : jsIncludes (jsToLower ua1) "headless" = true ∨
      jsIncludes (jsToLower ua1) "phantom" = true ∨
      jsIncludes (jsToLower ua1) "selenium" = true ∨
      jsIncludes (jsToLower ua1) "chromedriver" = true)
    (hA1 : ¬(jsIncludes (jsToLower ua1) "puppeteer" = true ∨
      jsIncludes (jsToLower ua1) "playwright" = true ∨
      jsIncludes (jsToLower ua1) "webdriver" = true))
    (hB1 : ¬(jsIncludes (jsToLower ua1) "bot" = true ∨
      jsIncludes (jsToLower ua1) "crawler" = true ∨
      jsIncludes (jsToLower ua1) "spider" = true))
    (hO1 : ¬(jsIncludes (jsToLower ua1) "msie" = true ∨
      jsIncludes (jsToLower ua1) "internet explorer" = true))
    (hH2 : ¬(jsIncludes (jsToLower ua2) "headless" = true ∨
      jsIncludes (jsToLower ua2) "phantom" = true ∨
      jsIncludes (jsToLower ua2) "selenium" = true ∨
      jsIncludes (jsToLower ua2) "chromedriver" = true))
    (hA2 : ¬(jsIncludes (jsToLower ua2) "puppeteer" = true ∨
      jsIncludes (jsToLower ua2) "playwright" = true ∨
      jsIncludes (jsToLower ua2) "webdriver" = true))
    (hB2 : ¬(jsIncludes (jsToLower ua2) "bot" = true ∨
      jsIncludes (jsToLower ua2) "crawler" = true ∨
      jsIncludes (jsToLower ua2) "spider" = true))
    (hO2 : ¬(jsIncludes (jsToLower ua2) "msie" = true ∨
      jsIncludes (jsToLower ua2) "internet explorer" = true)) :
    Part002.scoreRaw store { s with userAgent := ua1 } =
        Part002.scoreRaw store { s with userAgent := ua2 } + 60 ∧
      "headless-browser" ∈ Part002.riskFactors store { s with userAgent := ua1 } := by
  let v1 : FingerprintSession := { s with userAgent := ua1 }
  let v2 : FingerprintSession := { s with userAgent := ua2 }
  show Part002.scoreRaw store v1 = Part002.scoreRaw store v2 + 60 ∧
    "headless-browser" ∈ Part002.riskFactors store v1
  have hh1 : Part002.headlessStep v1 = (60, ["headless-browser"]) := by
    unfold Part002.headlessStep; dsimp only; rw [if_pos hH]
  have hh2 : Part002.headlessStep v2 = (0, []) := by
    unfold Part002.headlessStep; dsimp only; rw [if_neg hH2]
  have ha1 : Part002.automationStep v1 = (0, []) := by
    unfold Part002.automationStep; dsimp only; rw [if_neg hA1]
  have ha2 : Part002.automationStep v2 = (0, []) := by
    unfold Part002.automationStep; dsimp only; rw [if_neg hA2]
  have hb1 : Part002.botUAStep v1 = (0, []) := by
    unfold Part002.botUAStep; dsimp only; rw [if_neg hB1]
  have hb2 : Part002.botUAStep v2 = (0, []) := by
    unfold Part002.botUAStep; dsimp only; rw [if_neg hB2]
  have ho1 : Part002.outdatedStep v1 = (0, []) := by
    unfold Part002.outdatedStep; dsimp only; rw [if_neg hO1]
  have ho2 : Part002.outdatedStep v2 = (0, []) := by
    unfold Part002.outdatedStep; dsimp only; rw [if_neg hO2]
  have f01 : Part002.fingerprintStep v1 = Part002.fingerprintStep v2 := rfl
  have f02 : Part002.incognitoStep v1 = Part002.incognitoStep v2 := rfl
  have f03 : Part002.ipBaseStep v1 = Part002.ipBaseStep v2 := rfl
  have f04 : Part002.ipVPNStep v1 = Part002.ipVPNStep v2 := rfl
  have f05 : Part002.ipTorStep v1 = Part002.ipTorStep v2 := rfl
  have f06 : Part002.ipProxyStep v1 = Part002.ipProxyStep v2 := rfl
  have f07 : Part002.ipHostingStep v1 = Part002.ipHostingStep v2 := rfl
  have f08 : Part002.ipKnownVPNStep v1 = Part002.ipKnownVPNStep v2 := rfl
  have f09 : Part002.ipBlacklistStep v1 = Part002.ipBlacklistStep v2 := rfl
  have f10 : Part002.ipHighRiskStep v1 = Part002.ipHighRiskStep v2 := rfl
  have f11 : Part002.patternBaseStep v1 = Part002.patternBaseStep v2 := rfl
  have f12 : Part002.mouseSpeedStep v1 = Part002.mouseSpeedStep v2 := rfl
  have f13 : Part002.typingSpeedStep v1 = Part002.typingSpeedStep v2 := rfl
  have f14 : Part002.keystrokeStep v1 = Part002.keystrokeStep v2 := rfl
  have f15 : Part002.straightMouseStep v1 = Part002.straightMouseStep v2 := rfl
  have f16 : Part002.interactionSpeedStep v1 = Part002.interactionSpeedStep v2 := rfl
  have f17 : Part002.burstStep v1 = Part002.burstStep v2 := rfl
  have f18 : Part002.idleStep v1 = Part002.idleStep v2 := rfl
  have f19 : Part002.screenStep v1 = Part002.screenStep v2 := rfl
  have f20 : Part002.timezoneStep v1 = Part002.timezoneStep v2 := rfl
  have f21 : Part002.languageStep v1 = Part002.languageStep v2 := rfl
  have f22 : Part002.historyDeviceStep store v1 = Part002.historyDeviceStep store v2 := rfl
  have f23 : Part002.historyIPStep store v1 = Part002.historyIPStep store v2 := rfl
  constructor
  · simp only [Part002.scoreRaw, f01, f02, f03, f04, f05, f06, f07, f08, f09, f10, f11, f12, f13, f14, f15, f16, f17, f18, f19, f20, f21, f22, f23, hh1, hh2, ha1, ha2, hb1, hb2, ho1, ho2]
    ring
  · simp only [Part002.riskFactors, hh1, ha1, hb1, ho1]
    simp

/-- Witness for C10: a concrete headless user agent against a clean one. -/
theorem claim_C10_witness :
    Part002.scoreRaw store0 { sessionNeutral with userAgent := "HeadlessChrome/120" } =
        Part002.scoreRaw store0 { sessionNeutral with userAgent := "Mozilla/5.0 Chrome" } + 60 ∧
      "headless-browser" ∈
        Part002.riskFactors store0
          { sessionNeutral with userAgent := "HeadlessChrome/120" } :=
  claim_C10 store0 sessionNeutral "HeadlessChrome/120" "Mozilla/5.0 Chrome" (by decide)
    (by decide) (by decide) (by decide) (by decide) (by decide) (by decide) (by decide)
